import Mathlib

/-!
The wait-for-agent-to-connect provisioning stage.

A shallow embedding of
`components/provisioner/internal/operations/stages/provisioning/wait_for_agent_to_connect.go`.

The stage talks to three collaborators (the Compass Connection client, the
runtime configurator and the director client).  Their answers are inputs of
the model; every call made to them is appended to a trace of events, so an
invocation of `Run` yields the returned pair, the receiver after the call and
the trace of what the invocation did.
-/

namespace Provisioning

/-! ## Data model -/

/-- Go `time.Duration`: a count of nanoseconds. -/
abbrev Duration := Int

/-- Go `time.Second`. -/
def Second : Duration := 1000000000

/-- Go `time.Minute`. -/
def Minute : Duration := 60 * Second

/-- Go `model.OperationStage`, a string type. -/
abbrev OperationStage := String

/-- Modelled from the spec: the stage identifier `model.WaitForAgentToConnect`, a constant of
package `model`, which is not among the sources; it stands for the name of this stage. -/
def WaitForAgentToConnect : OperationStage := "WaitForAgentToConnect"

/-- Go `operations.StageResult`. -/
structure StageResult where
  Stage : OperationStage
  Delay : Duration
deriving DecidableEq, Repr

/-- The Go zero value `operations.StageResult{}`. -/
def StageResult.zero : StageResult := { Stage := "", Delay := 0 }

/-- Go `v1alpha1.ConnectionState`, a string type. -/
abbrev ConnectionState := String

/-- Modelled from the spec: the state constant `v1alpha1.ConnectionFailed` (declared outside the
sources), the connection-failed classification. -/
def ConnectionFailed : ConnectionState := "ConnectionFailed"

/-- Modelled from the spec: the state constant `v1alpha1.SynchronizationFailed` (declared outside
the sources), the synchronization-failed classification. -/
def SynchronizationFailed : ConnectionState := "SynchronizationFailed"

/-- Modelled from the spec: the state constant `v1alpha1.MetadataUpdateFailed` (declared outside
the sources), the metadata-update-failed classification. -/
def MetadataUpdateFailed : ConnectionState := "MetadataUpdateFailed"

/-- Modelled from the spec: the state constant `v1alpha1.Synchronized` (declared outside the
sources), the connected-and-synchronized classification. -/
def Synchronized : ConnectionState := "Synchronized"

/-- Go `v1alpha1.CompassConnectionStatus`, reduced to the field `Run` reads. -/
structure CompassConnectionStatus where
  State : ConnectionState
deriving DecidableEq, Repr

/-- Go `v1alpha1.CompassConnection`, reduced to the field `Run` reads. -/
structure CompassConnection where
  Status : CompassConnectionStatus
deriving DecidableEq, Repr

/-- Go `model.Cluster`, reduced to the fields the stage reads.  `Kubeconfig` is a `*string`. -/
structure Cluster where
  ID : String
  Tenant : String
  Kubeconfig : Option String
deriving DecidableEq, Repr

/-- Modelled from the spec: `model.Operation` (declared outside the sources) carries the stage the
operation is at and how long it has been there. -/
structure Operation where
  Stage : OperationStage
  Elapsed : Duration
deriving DecidableEq, Repr

/-- Go `rest.Config`, what `k8s.ParseToK8sConfig` produces; only passed on to the client
constructor. -/
structure RestConfig where
  data : String
deriving DecidableEq, Repr

/-- Go `graphql.RuntimeStatusCondition`, a string type. -/
abbrev RuntimeStatusCondition := String

/-- Modelled from the spec: the constant `graphql.RuntimeStatusConditionConnected` (declared
outside the sources), the "connected" status reported to the directory service. -/
def RuntimeStatusConditionConnected : RuntimeStatusCondition := "CONNECTED"

/-- Go `apperrors.ErrComponent`: the two components `Run` sets. -/
inductive ErrComponent where
  | ErrCompassConnectionClient
  | ErrCompassConnection
deriving DecidableEq, Repr

/-- Modelled from the spec: the error values of packages `apperrors`, `errors`, `fmt` and `util`,
which are not among the sources.  Errors are kept symbolic: an error is either produced by a
collaborator or built by `Run` with one of the constructors and wrappers it calls; a wrapper
applied to an error yields an error (a hard Error of the spec), never `nil`. -/
inductive Err where
  /-- an error returned by a collaborator; `notFound` is what `k8serrors.IsNotFound` sees -/
  | external (msg : String) (notFound : Bool)
  /-- Go `fmt.Errorf(msg)` -/
  | errorf (msg : String)
  /-- Go `errors.Wrap(e, msg)` -/
  | wrap (e : Err) (msg : String)
  /-- Go `util.K8SErrorToAppError(e)` -/
  | K8SErrorToAppError (e : Err)
  /-- Go `e.SetComponent(c)` -/
  | SetComponent (e : Err) (c : ErrComponent)
  /-- Go `e.Append(msg)` -/
  | Append (e : Err) (msg : String)
deriving DecidableEq, Repr

/-- Go `k8serrors.IsNotFound`, as applied to the error of the fetch. -/
def IsNotFound : Err → Bool
  | .external _ nf => nf
  | _ => false

/-- Go `err.Error()`, kept symbolic as well. -/
def Err.Error : Err → String
  | .external msg _ => msg
  | .errorf msg => msg
  | .wrap e msg => msg ++ ": " ++ e.Error
  | .K8SErrorToAppError e => e.Error
  | .SetComponent e _ => e.Error
  | .Append e msg => msg ++ ", " ++ e.Error

/-- Levels of the `logrus.FieldLogger` calls made by the stage. -/
inductive LogLevel where
  | info
  | warn
  | error
deriving DecidableEq, Repr

/-- What an invocation does, in order: calls to collaborators, log lines and sleeps. -/
inductive Event where
  /-- Go `s.newCompassConnectionClient(k8sConfig)` -/
  | newCompassConnectionClient (k8sConfig : RestConfig)
  /-- Go `compassConnClient.Get(ctx, name, opts)` -/
  | get (name : String)
  /-- Go `s.runtimeConfigurator.ConfigureRuntime(cluster, kubeconfig)` -/
  | configureRuntime (cluster : Cluster) (kubeconfig : String)
  /-- Go `s.directorClient.SetRuntimeStatusCondition(id, condition, tenant)` -/
  | setRuntimeStatusCondition (id : String) (condition : RuntimeStatusCondition) (tenant : String)
  /-- a call of the logger -/
  | log (level : LogLevel) (msg : String)
  /-- Go `time.Sleep(d)` -/
  | sleep (d : Duration)
deriving DecidableEq, Repr

/-- The trace of one invocation, oldest event first. -/
abbrev Trace := List Event

/-- Is the event a directory report? -/
def Event.isSetRuntimeStatusCondition : Event → Bool
  | .setRuntimeStatusCondition _ _ _ => true
  | _ => false

/-- Is the event a remediation call? -/
def Event.isConfigureRuntime : Event → Bool
  | .configureRuntime _ _ => true
  | _ => false

/-- Is the event a sleep? -/
def Event.isSleep : Event → Bool
  | .sleep _ => true
  | _ => false

/-- Is the event a call to an external collaborator (client construction, fetch, remediation,
directory report)? -/
def Event.isExternalCall : Event → Bool
  | .newCompassConnectionClient _ => true
  | .get _ => true
  | .configureRuntime _ _ => true
  | .setRuntimeStatusCondition _ _ _ => true
  | .log _ _ => false
  | .sleep _ => false

/-- The external calls of a trace, in order. -/
def externalCalls (t : Trace) : Trace := t.filter Event.isExternalCall

/-- Number of directory reports in a trace. -/
def directorCalls (t : Trace) : Nat := t.countP Event.isSetRuntimeStatusCondition

/-- Number of remediation calls in a trace. -/
def configureCalls (t : Trace) : Nat := t.countP Event.isConfigureRuntime

/-- Number of sleeps in a trace. -/
def sleeps (t : Trace) : Nat := t.countP Event.isSleep

/-! ## Collaborators -/

/-- Go `compass_conn_clientset.CompassConnectionInterface`, reduced to `Get`. -/
structure CompassConnectionInterface where
  Get : String → Except Err CompassConnection

/-- Go `CompassConnectionClientConstructor`. -/
abbrev CompassConnectionClientConstructor := RestConfig → Except Err CompassConnectionInterface

/-- Go `runtime.Configurator`, reduced to `ConfigureRuntime`; `none` is a nil error. -/
structure Configurator where
  ConfigureRuntime : Cluster → String → Option Err

/-- Go `director.DirectorClient`, reduced to `SetRuntimeStatusCondition`; `none` is a nil error.
The service may answer differently from call to call: the first argument is the number of
reports it has already received during the invocation. -/
structure DirectorClient where
  SetRuntimeStatusCondition : Nat → String → RuntimeStatusCondition → String → Option Err

/-- Package `k8s` of the provisioner, which is not among the sources: `ParseToK8sConfig` is taken
as a parameter of `Run`. -/
structure K8s where
  ParseToK8sConfig : String → Except Err RestConfig

/-! ## The stage -/

/-- Go constant `defaultCompassConnectionName`. -/
def defaultCompassConnectionName : String := "compass-connection"

/-- Go `WaitForAgentToConnectStep`. -/
structure WaitForAgentToConnectStep where
  newCompassConnectionClient : CompassConnectionClientConstructor
  runtimeConfigurator : Configurator
  directorClient : DirectorClient
  nextStep : OperationStage
  timeLimit : Duration

/-- Go `NewWaitForAgentToConnectStep`. -/
def NewWaitForAgentToConnectStep (ccClientProvider : CompassConnectionClientConstructor)
    (runtimeConfigurator : Configurator) (nextStep : OperationStage) (timeLimit : Duration)
    (directorClient : DirectorClient) : WaitForAgentToConnectStep :=
  { newCompassConnectionClient := ccClientProvider
    runtimeConfigurator := runtimeConfigurator
    directorClient := directorClient
    nextStep := nextStep
    timeLimit := timeLimit }

/-- Go `(*WaitForAgentToConnectStep).Name`. -/
def WaitForAgentToConnectStep.Name (_s : WaitForAgentToConnectStep) : OperationStage :=
  WaitForAgentToConnect

/-- Go `(*WaitForAgentToConnectStep).TimeLimit`. -/
def WaitForAgentToConnectStep.TimeLimit (s : WaitForAgentToConnectStep) : Duration :=
  s.timeLimit

/-- Modelled from the spec: the retry helper `util.RetryOnError`, which is not among the sources.
"Invoke the operation; on failure, sleep the fixed delay and retry, up to the attempt limit;
return the last error if all attempts are exhausted, otherwise return success on the first
attempt that succeeds."  The operation acts on the trace; a sleep is recorded as an event. -/
def RetryOnError (interval : Duration) (count : Nat) (operation : Trace → Option Err × Trace)
    (t : Trace) : Option Err × Trace :=
  match count with
  | 0 => (none, t)
  | n + 1 =>
    match operation t with
    | (none, t1) => (none, t1)
    | (some e, t1) =>
      match n with
      | 0 => (some e, t1)
      | _ + 1 => RetryOnError interval n operation (t1 ++ [Event.sleep interval])

/-- The closure handed to `RetryOnError` by `setConnectedRuntimeStatusCondition`: one call of
`s.directorClient.SetRuntimeStatusCondition(cluster.ID, Connected, cluster.Tenant)`. -/
def reportConnected (s : WaitForAgentToConnectStep) (cluster : Cluster) (t : Trace) :
    Option Err × Trace :=
  (s.directorClient.SetRuntimeStatusCondition (directorCalls t) cluster.ID
      RuntimeStatusConditionConnected cluster.Tenant,
    t ++ [Event.setRuntimeStatusCondition cluster.ID RuntimeStatusConditionConnected
      cluster.Tenant])

/-- Go `(*WaitForAgentToConnectStep).setConnectedRuntimeStatusCondition`. -/
def WaitForAgentToConnectStep.setConnectedRuntimeStatusCondition (s : WaitForAgentToConnectStep)
    (cluster : Cluster) (t : Trace) : StageResult × Trace :=
  match RetryOnError (5 * Second) 3 (reportConnected s cluster) t with
  | (some err, t1) =>
    ({ Stage := s.Name, Delay := 2 * Second },
      t1 ++ [Event.log LogLevel.error
        ("Failed to set runtime " ++ RuntimeStatusConditionConnected ++ " status condition: "
          ++ err.Error)])
  | (none, t1) => ({ Stage := s.nextStep, Delay := 0 }, t1)

/-- What one invocation of `Run` yields: the returned pair, the receiver after the call (the Go
receiver is a pointer) and the trace of the invocation. -/
structure RunOutcome where
  result : StageResult
  err : Option Err
  step : WaitForAgentToConnectStep
  trace : Trace

/-- The returned `(StageResult, error)` pair. -/
def RunOutcome.ret (o : RunOutcome) : StageResult × Option Err := (o.result, o.err)

/-- Go `(*WaitForAgentToConnectStep).Run`. -/
def WaitForAgentToConnectStep.Run (k8s : K8s) (s : WaitForAgentToConnectStep) (cluster : Cluster)
    (_operation : Operation) : RunOutcome :=
  match cluster.Kubeconfig with
  | none =>
    { result := StageResult.zero, err := some (Err.errorf "error: kubeconfig is nil"),
      step := s, trace := [] }
  | some kubeconfig =>
    match k8s.ParseToK8sConfig kubeconfig with
    | .error err =>
      { result := StageResult.zero, err := some (Err.K8SErrorToAppError err),
        step := s, trace := [] }
    | .ok k8sConfig =>
      let t1 : Trace := [Event.newCompassConnectionClient k8sConfig]
      match s.newCompassConnectionClient k8sConfig with
      | .error err =>
        { result := StageResult.zero,
          err := some (Err.SetComponent (Err.K8SErrorToAppError err)
            ErrComponent.ErrCompassConnectionClient),
          step := s, trace := t1 }
      | .ok compassConnClient =>
        let t2 : Trace := t1 ++ [Event.get defaultCompassConnectionName]
        match compassConnClient.Get defaultCompassConnectionName with
        | .error err =>
          if IsNotFound err then
            { result := { Stage := s.Name, Delay := 5 * Second }, err := none, step := s,
              trace := t2 ++ [Event.log LogLevel.info
                "Compass Connection not yet found on cluster"] }
          else
            { result := StageResult.zero,
              err := some (Err.SetComponent
                (Err.K8SErrorToAppError
                  (Err.wrap err "error getting Compass Connection CR on the Runtime"))
                ErrComponent.ErrCompassConnection),
              step := s, trace := t2 }
        | .ok compassConnCR =>
          if compassConnCR.Status.State = ConnectionFailed then
            let t3 : Trace := t2 ++ [Event.log LogLevel.warn
              "Compass Connection is in Failed state, trying to reconfigure runtime",
              Event.configureRuntime cluster kubeconfig]
            match s.runtimeConfigurator.ConfigureRuntime cluster kubeconfig with
            | some err =>
              { result := StageResult.zero,
                err := some (Err.Append err
                  "error: Compass Connection is in Failed state: reconfigure runtime faiure"),
                step := s, trace := t3 }
            | none =>
              { result := { Stage := s.Name, Delay := 2 * Minute }, err := none, step := s,
                trace := t3 }
          else if compassConnCR.Status.State ≠ Synchronized then
            if compassConnCR.Status.State = SynchronizationFailed then
              let r := s.setConnectedRuntimeStatusCondition cluster
                (t2 ++ [Event.log LogLevel.warn
                  ("Runtime Agent Connected but resource synchronization failed state: "
                    ++ compassConnCR.Status.State)])
              { result := r.1, err := none, step := s, trace := r.2 }
            else if compassConnCR.Status.State = MetadataUpdateFailed then
              let r := s.setConnectedRuntimeStatusCondition cluster
                (t2 ++ [Event.log LogLevel.warn
                  ("Runtime Agent Connected but metadata update failed: "
                    ++ compassConnCR.Status.State)])
              { result := r.1, err := none, step := s, trace := r.2 }
            else
              { result := { Stage := s.Name, Delay := 2 * Second }, err := none, step := s,
                trace := t2 ++ [Event.log LogLevel.info
                  ("Compass Connection not yet in Synchronized state, current state: "
                    ++ compassConnCR.Status.State)] }
          else
            let r := s.setConnectedRuntimeStatusCondition cluster t2
            { result := r.1, err := none, step := s, trace := r.2 }

/-! ## Vocabulary of the statements -/

/-- The answer of the director to the report of this cluster on its call number `i` of the
invocation. -/
def reportOutcome (s : WaitForAgentToConnectStep) (cluster : Cluster) (i : Nat) : Option Err :=
  s.directorClient.SetRuntimeStatusCondition i cluster.ID RuntimeStatusConditionConnected
    cluster.Tenant

/-- The event of one report of this cluster to the director. -/
def reportEvent (cluster : Cluster) : Event :=
  Event.setRuntimeStatusCondition cluster.ID RuntimeStatusConditionConnected cluster.Tenant

/-- The three states in which the agent counts as connected. -/
def isConnectedState (st : ConnectionState) : Prop :=
  st = Synchronized ∨ st = SynchronizationFailed ∨ st = MetadataUpdateFailed

instance (st : ConnectionState) : Decidable (isConnectedState st) := by
  unfold isConnectedState
  infer_instance

/-- The warning `Run` logs before reporting, for the two connected-with-warning states. -/
def connectedWarning (st : ConnectionState) : Trace :=
  if st = SynchronizationFailed then
    [Event.log LogLevel.warn
      ("Runtime Agent Connected but resource synchronization failed state: " ++ st)]
  else if st = MetadataUpdateFailed then
    [Event.log LogLevel.warn ("Runtime Agent Connected but metadata update failed: " ++ st)]
  else []

/-- The cluster's credentials are usable: the kubeconfig is present and parses, and the client
constructor yields a client. -/
def usableCredentials (k8s : K8s) (s : WaitForAgentToConnectStep) (cluster : Cluster)
    (kc : String) (cfg : RestConfig) (client : CompassConnectionInterface) : Prop :=
  cluster.Kubeconfig = some kc ∧ k8s.ParseToK8sConfig kc = .ok cfg ∧
    s.newCompassConnectionClient cfg = .ok client

/-- Some attempt among the first three succeeds, all earlier ones having failed. -/
def reportSucceeds (s : WaitForAgentToConnectStep) (cluster : Cluster) : Prop :=
  ∃ i, i < 3 ∧ reportOutcome s cluster i = none ∧ ∀ j, j < i → reportOutcome s cluster j ≠ none

/-- The resource was fetched, with usable credentials, in a state in which the agent counts as
connected. -/
def fetchedConnected (k8s : K8s) (s : WaitForAgentToConnectStep) (cluster : Cluster) : Prop :=
  ∃ kc cfg client cr, usableCredentials k8s s cluster kc cfg client ∧
    client.Get defaultCompassConnectionName = .ok cr ∧ isConnectedState cr.Status.State

/-- The five ways in which `Run` fails: no kubeconfig; a kubeconfig that does not parse; a client
that cannot be constructed; a fetch that fails with an error other than not-found; a fetched
state `ConnectionFailed` with a failing remediation. -/
def hardErrorCondition (k8s : K8s) (s : WaitForAgentToConnectStep) (cluster : Cluster) : Prop :=
  cluster.Kubeconfig = none ∨
  (∃ kc e, cluster.Kubeconfig = some kc ∧ k8s.ParseToK8sConfig kc = .error e) ∨
  (∃ kc cfg e, cluster.Kubeconfig = some kc ∧ k8s.ParseToK8sConfig kc = .ok cfg ∧
    s.newCompassConnectionClient cfg = .error e) ∨
  (∃ kc cfg client e, usableCredentials k8s s cluster kc cfg client ∧
    client.Get defaultCompassConnectionName = .error e ∧ IsNotFound e = false) ∨
  (∃ kc cfg client cr e, usableCredentials k8s s cluster kc cfg client ∧
    client.Get defaultCompassConnectionName = .ok cr ∧ cr.Status.State = ConnectionFailed ∧
    s.runtimeConfigurator.ConfigureRuntime cluster kc = some e)

/-! ## Sample inputs -/

/-- A parser that accepts every non-empty kubeconfig. -/
def sampleK8s : K8s :=
  { ParseToK8sConfig := fun kubeconfig =>
      if kubeconfig = "" then .error (Err.external "empty kubeconfig" false)
      else .ok { data := kubeconfig } }

/-- A cluster with credentials. -/
def sampleCluster : Cluster :=
  { ID := "runtime-1", Tenant := "tenant-1", Kubeconfig := some "kubeconfig" }

/-- A cluster without credentials. -/
def sampleClusterNoKubeconfig : Cluster :=
  { ID := "runtime-1", Tenant := "tenant-1", Kubeconfig := none }

/-- An operation. -/
def sampleOperation : Operation := { Stage := WaitForAgentToConnect, Elapsed := 0 }

/-- Another operation. -/
def otherOperation : Operation := { Stage := "ConnectRuntimeAgent", Elapsed := 90 * Second }

/-- A client whose fetch answers as given. -/
def sampleClient (fetched : Except Err CompassConnection) : CompassConnectionInterface :=
  { Get := fun _ => fetched }

/-- A step whose collaborators answer as given: the fetch with `fetched`, the remediation with
`configured`, and the director with `reported n` on its call number `n`. -/
def sampleStep (fetched : Except Err CompassConnection) (configured : Option Err)
    (reported : Nat → Option Err) : WaitForAgentToConnectStep :=
  NewWaitForAgentToConnectStep
    (fun _ => .ok (sampleClient fetched))
    { ConfigureRuntime := fun _ _ => configured }
    "NextStep"
    (10 * Minute)
    { SetRuntimeStatusCondition := fun n _ _ _ => reported n }

/-- A fetched resource in the given state. -/
def fetchedState (st : ConnectionState) : Except Err CompassConnection :=
  .ok { Status := { State := st } }

/-- A failure of a collaborator. -/
def sampleFailure : Err := Err.external "unavailable" false

/-- A not-found answer of the fetch. -/
def sampleNotFound : Err := Err.external "compassconnections not found" true

/-! ## Basic facts -/

/-- The four state constants the stage compares with are pairwise distinct. -/
theorem states_distinct :
    SynchronizationFailed ≠ ConnectionFailed ∧ MetadataUpdateFailed ≠ ConnectionFailed ∧
    Synchronized ≠ ConnectionFailed ∧ SynchronizationFailed ≠ Synchronized ∧
    MetadataUpdateFailed ≠ Synchronized ∧ MetadataUpdateFailed ≠ SynchronizationFailed := by
  decide

/-- The three delays the stage asks for are positive. -/
theorem delays_pos : (0 : Duration) < 5 * Second ∧ (0 : Duration) < 2 * Minute ∧
    (0 : Duration) < 2 * Second := by
  decide

/-- With usable credentials `Run` is decided by the fetch: the invocation when the resource is
not found. -/
theorem Run_of_not_found (k8s : K8s) (s : WaitForAgentToConnectStep) (cluster : Cluster)
    (op : Operation) (kc : String) (cfg : RestConfig) (client : CompassConnectionInterface)
    (e : Err)
    (hk : cluster.Kubeconfig = some kc) (hp : k8s.ParseToK8sConfig kc = .ok cfg)
    (hc : s.newCompassConnectionClient cfg = .ok client)
    (hg : client.Get defaultCompassConnectionName = .error e) (hnf : IsNotFound e = true) :
    s.Run k8s cluster op =
      { result := { Stage := s.Name, Delay := 5 * Second }, err := none, step := s,
        trace := [Event.newCompassConnectionClient cfg, Event.get defaultCompassConnectionName,
          Event.log LogLevel.info "Compass Connection not yet found on cluster"] } := by
  simp [WaitForAgentToConnectStep.Run, hk, hp, hc, hg, hnf]

/-- With usable credentials and a fetched state `ConnectionFailed`, the invocation is decided by
the remediation call. -/
theorem Run_of_connection_failed (k8s : K8s) (s : WaitForAgentToConnectStep) (cluster : Cluster)
    (op : Operation) (kc : String) (cfg : RestConfig) (client : CompassConnectionInterface)
    (cr : CompassConnection)
    (hk : cluster.Kubeconfig = some kc) (hp : k8s.ParseToK8sConfig kc = .ok cfg)
    (hc : s.newCompassConnectionClient cfg = .ok client)
    (hg : client.Get defaultCompassConnectionName = .ok cr)
    (hst : cr.Status.State = ConnectionFailed) :
    s.Run k8s cluster op =
      { result := match s.runtimeConfigurator.ConfigureRuntime cluster kc with
          | some _ => StageResult.zero
          | none => { Stage := s.Name, Delay := 2 * Minute }
        err := match s.runtimeConfigurator.ConfigureRuntime cluster kc with
          | some err => some (Err.Append err
              "error: Compass Connection is in Failed state: reconfigure runtime faiure")
          | none => none
        step := s
        trace := [Event.newCompassConnectionClient cfg, Event.get defaultCompassConnectionName,
          Event.log LogLevel.warn
            "Compass Connection is in Failed state, trying to reconfigure runtime",
          Event.configureRuntime cluster kc] } := by
  cases hcfg : s.runtimeConfigurator.ConfigureRuntime cluster kc <;>
    simp [WaitForAgentToConnectStep.Run, hk, hp, hc, hg, hst, hcfg]

/-- With usable credentials and a fetched state that is none of the four the stage knows, the
invocation waits. -/
theorem Run_of_converging (k8s : K8s) (s : WaitForAgentToConnectStep) (cluster : Cluster)
    (op : Operation) (kc : String) (cfg : RestConfig) (client : CompassConnectionInterface)
    (cr : CompassConnection)
    (hk : cluster.Kubeconfig = some kc) (hp : k8s.ParseToK8sConfig kc = .ok cfg)
    (hc : s.newCompassConnectionClient cfg = .ok client)
    (hg : client.Get defaultCompassConnectionName = .ok cr)
    (h1 : cr.Status.State ≠ ConnectionFailed) (h2 : cr.Status.State ≠ SynchronizationFailed)
    (h3 : cr.Status.State ≠ MetadataUpdateFailed) (h4 : cr.Status.State ≠ Synchronized) :
    s.Run k8s cluster op =
      { result := { Stage := s.Name, Delay := 2 * Second }, err := none, step := s,
        trace := [Event.newCompassConnectionClient cfg, Event.get defaultCompassConnectionName,
          Event.log LogLevel.info
            ("Compass Connection not yet in Synchronized state, current state: "
              ++ cr.Status.State)] } := by
  simp [WaitForAgentToConnectStep.Run, hk, hp, hc, hg, h1, h2, h3, h4]

/-- Director calls of a concatenation. -/
theorem directorCalls_append (t u : Trace) :
    directorCalls (t ++ u) = directorCalls t + directorCalls u := by
  simp [directorCalls]

/-- Director calls of a trace, event by event. -/
theorem directorCalls_cons (e : Event) (t : Trace) :
    directorCalls (e :: t) = directorCalls t + (if e.isSetRuntimeStatusCondition then 1 else 0) := by
  simp [directorCalls, List.countP_cons]

/-- The empty trace has no director call. -/
theorem directorCalls_nil : directorCalls [] = 0 := rfl

/-- The report step, attempt by attempt: it stops at the first success, sleeps between two
attempts, and gives up after the third failure. -/
theorem setConnected_eq (s : WaitForAgentToConnectStep) (cluster : Cluster) (t : Trace) :
    s.setConnectedRuntimeStatusCondition cluster t =
      match reportOutcome s cluster (directorCalls t) with
      | none => ({ Stage := s.nextStep, Delay := 0 }, t ++ [reportEvent cluster])
      | some _ =>
        match reportOutcome s cluster (directorCalls t + 1) with
        | none =>
          ({ Stage := s.nextStep, Delay := 0 },
            t ++ [reportEvent cluster, Event.sleep (5 * Second), reportEvent cluster])
        | some _ =>
          match reportOutcome s cluster (directorCalls t + 2) with
          | none =>
            ({ Stage := s.nextStep, Delay := 0 },
              t ++ [reportEvent cluster, Event.sleep (5 * Second), reportEvent cluster,
                Event.sleep (5 * Second), reportEvent cluster])
          | some err =>
            ({ Stage := s.Name, Delay := 2 * Second },
              t ++ [reportEvent cluster, Event.sleep (5 * Second), reportEvent cluster,
                Event.sleep (5 * Second), reportEvent cluster,
                Event.log LogLevel.error
                  ("Failed to set runtime " ++ RuntimeStatusConditionConnected
                    ++ " status condition: " ++ err.Error)]) := by
  have a1 : ∀ n : Nat, n + 1 + 1 = n + 2 := fun n => rfl
  cases h0 : s.directorClient.SetRuntimeStatusCondition (directorCalls t) cluster.ID
      RuntimeStatusConditionConnected cluster.Tenant <;>
    cases h1 : s.directorClient.SetRuntimeStatusCondition (directorCalls t + 1) cluster.ID
      RuntimeStatusConditionConnected cluster.Tenant <;>
    cases h2 : s.directorClient.SetRuntimeStatusCondition (directorCalls t + 2) cluster.ID
      RuntimeStatusConditionConnected cluster.Tenant <;>
    simp [WaitForAgentToConnectStep.setConnectedRuntimeStatusCondition, RetryOnError,
      reportConnected, reportOutcome, reportEvent, directorCalls_append, directorCalls_cons,
      directorCalls_nil, Event.isSetRuntimeStatusCondition, a1, h0, h1, h2]

/-- With usable credentials and a fetched state in which the agent counts as connected, the
invocation is the report step, run after the fetch (and after the warning, if any). -/
theorem Run_of_connected (k8s : K8s) (s : WaitForAgentToConnectStep) (cluster : Cluster)
    (op : Operation) (kc : String) (cfg : RestConfig) (client : CompassConnectionInterface)
    (cr : CompassConnection)
    (hk : cluster.Kubeconfig = some kc) (hp : k8s.ParseToK8sConfig kc = .ok cfg)
    (hc : s.newCompassConnectionClient cfg = .ok client)
    (hg : client.Get defaultCompassConnectionName = .ok cr)
    (hst : isConnectedState cr.Status.State) :
    s.Run k8s cluster op =
      { result := (s.setConnectedRuntimeStatusCondition cluster
          ([Event.newCompassConnectionClient cfg, Event.get defaultCompassConnectionName]
            ++ connectedWarning cr.Status.State)).1
        err := none
        step := s
        trace := (s.setConnectedRuntimeStatusCondition cluster
          ([Event.newCompassConnectionClient cfg, Event.get defaultCompassConnectionName]
            ++ connectedWarning cr.Status.State)).2 } := by
  obtain ⟨h1, h2, h3, h4, h5, h6⟩ := states_distinct
  rcases hst with h | h | h
  · simp [WaitForAgentToConnectStep.Run, hk, hp, hc, hg, h, connectedWarning, h3, h4.symm,
      h5.symm]
  · simp [WaitForAgentToConnectStep.Run, hk, hp, hc, hg, h, connectedWarning, h1, h4]
  · simp [WaitForAgentToConnectStep.Run, hk, hp, hc, hg, h, connectedWarning, h2, h5, h6]

/-- The paths of `Run`: every invocation takes exactly one of the eight ways through the
function, and each way fixes what the invocation yields. -/
theorem Run_cases (k8s : K8s) (s : WaitForAgentToConnectStep) (cluster : Cluster)
    (op : Operation) :
    (cluster.Kubeconfig = none ∧
      s.Run k8s cluster op =
        { result := StageResult.zero, err := some (Err.errorf "error: kubeconfig is nil"),
          step := s, trace := [] }) ∨
    (∃ kc e, cluster.Kubeconfig = some kc ∧ k8s.ParseToK8sConfig kc = .error e ∧
      s.Run k8s cluster op =
        { result := StageResult.zero, err := some (Err.K8SErrorToAppError e),
          step := s, trace := [] }) ∨
    (∃ kc cfg e, cluster.Kubeconfig = some kc ∧ k8s.ParseToK8sConfig kc = .ok cfg ∧
      s.newCompassConnectionClient cfg = .error e ∧
      s.Run k8s cluster op =
        { result := StageResult.zero,
          err := some (Err.SetComponent (Err.K8SErrorToAppError e)
            ErrComponent.ErrCompassConnectionClient),
          step := s, trace := [Event.newCompassConnectionClient cfg] }) ∨
    (∃ kc cfg client, usableCredentials k8s s cluster kc cfg client ∧
      ((∃ e, client.Get defaultCompassConnectionName = .error e ∧ IsNotFound e = true ∧
          s.Run k8s cluster op =
            { result := { Stage := s.Name, Delay := 5 * Second }, err := none, step := s,
              trace := [Event.newCompassConnectionClient cfg,
                Event.get defaultCompassConnectionName,
                Event.log LogLevel.info "Compass Connection not yet found on cluster"] }) ∨
        (∃ e, client.Get defaultCompassConnectionName = .error e ∧ IsNotFound e = false ∧
          s.Run k8s cluster op =
            { result := StageResult.zero,
              err := some (Err.SetComponent
                (Err.K8SErrorToAppError
                  (Err.wrap e "error getting Compass Connection CR on the Runtime"))
                ErrComponent.ErrCompassConnection),
              step := s,
              trace := [Event.newCompassConnectionClient cfg,
                Event.get defaultCompassConnectionName] }) ∨
        (∃ cr, client.Get defaultCompassConnectionName = .ok cr ∧
          cr.Status.State = ConnectionFailed ∧
          s.Run k8s cluster op =
            { result := match s.runtimeConfigurator.ConfigureRuntime cluster kc with
                | some _ => StageResult.zero
                | none => { Stage := s.Name, Delay := 2 * Minute }
              err := match s.runtimeConfigurator.ConfigureRuntime cluster kc with
                | some err => some (Err.Append err
                    "error: Compass Connection is in Failed state: reconfigure runtime faiure")
                | none => none
              step := s
              trace := [Event.newCompassConnectionClient cfg,
                Event.get defaultCompassConnectionName,
                Event.log LogLevel.warn
                  "Compass Connection is in Failed state, trying to reconfigure runtime",
                Event.configureRuntime cluster kc] }) ∨
        (∃ cr, client.Get defaultCompassConnectionName = .ok cr ∧
          isConnectedState cr.Status.State ∧
          s.Run k8s cluster op =
            { result := (s.setConnectedRuntimeStatusCondition cluster
                ([Event.newCompassConnectionClient cfg, Event.get defaultCompassConnectionName]
                  ++ connectedWarning cr.Status.State)).1
              err := none
              step := s
              trace := (s.setConnectedRuntimeStatusCondition cluster
                ([Event.newCompassConnectionClient cfg, Event.get defaultCompassConnectionName]
                  ++ connectedWarning cr.Status.State)).2 }) ∨
        (∃ cr, client.Get defaultCompassConnectionName = .ok cr ∧
          cr.Status.State ≠ ConnectionFailed ∧ ¬ isConnectedState cr.Status.State ∧
          s.Run k8s cluster op =
            { result := { Stage := s.Name, Delay := 2 * Second }, err := none, step := s,
              trace := [Event.newCompassConnectionClient cfg,
                Event.get defaultCompassConnectionName,
                Event.log LogLevel.info
                  ("Compass Connection not yet in Synchronized state, current state: "
                    ++ cr.Status.State)] }))) := by
  cases hk : cluster.Kubeconfig with
  | none =>
    left
    simp [WaitForAgentToConnectStep.Run, hk]
  | some kc =>
    right
    cases hp : k8s.ParseToK8sConfig kc with
    | error e =>
      left
      exact ⟨kc, e, rfl, hp, by simp [WaitForAgentToConnectStep.Run, hk, hp]⟩
    | ok cfg =>
      right
      cases hc : s.newCompassConnectionClient cfg with
      | error e =>
        left
        exact ⟨kc, cfg, e, rfl, hp, hc, by simp [WaitForAgentToConnectStep.Run, hk, hp, hc]⟩
      | ok client =>
        right
        refine ⟨kc, cfg, client, ⟨hk, hp, hc⟩, ?_⟩
        cases hg : client.Get defaultCompassConnectionName with
        | error e =>
          cases hnf : IsNotFound e with
          | true =>
            left
            exact ⟨e, rfl, hnf, Run_of_not_found k8s s cluster op kc cfg client e hk hp hc hg hnf⟩
          | false =>
            right; left
            exact ⟨e, rfl, hnf, by simp [WaitForAgentToConnectStep.Run, hk, hp, hc, hg, hnf]⟩
        | ok cr =>
          right; right
          by_cases h1 : cr.Status.State = ConnectionFailed
          · left
            exact ⟨cr, rfl, h1,
              Run_of_connection_failed k8s s cluster op kc cfg client cr hk hp hc hg h1⟩
          · right
            by_cases h2 : isConnectedState cr.Status.State
            · left
              exact ⟨cr, rfl, h2, Run_of_connected k8s s cluster op kc cfg client cr hk hp hc hg h2⟩
            · right
              have h2' := h2
              simp only [isConnectedState, not_or] at h2'
              exact ⟨cr, rfl, h1, h2,
                Run_of_converging k8s s cluster op kc cfg client cr hk hp hc hg h1 h2'.2.1
                  h2'.2.2 h2'.1⟩

/-- Usable credentials determine the kubeconfig, the parsed configuration and the client. -/
theorem usableCredentials_unique {k8s : K8s} {s : WaitForAgentToConnectStep} {cluster : Cluster}
    {kc kc' : String} {cfg cfg' : RestConfig} {client client' : CompassConnectionInterface}
    (h : usableCredentials k8s s cluster kc cfg client)
    (h' : usableCredentials k8s s cluster kc' cfg' client') :
    kc = kc' ∧ cfg = cfg' ∧ client = client' := by
  obtain ⟨hk, hp, hc⟩ := h
  obtain ⟨hk', hp', hc'⟩ := h'
  have e1 : kc = kc' := Option.some.inj (hk.symm.trans hk')
  subst e1
  have e2 : cfg = cfg' := Except.ok.inj (hp.symm.trans hp')
  subst e2
  exact ⟨rfl, rfl, Except.ok.inj (hc.symm.trans hc')⟩

/-- Before the report step no director call has been made. -/
theorem directorCalls_before_report (cfg : RestConfig) (st : ConnectionState) :
    directorCalls ([Event.newCompassConnectionClient cfg, Event.get defaultCompassConnectionName]
      ++ connectedWarning st) = 0 := by
  unfold connectedWarning
  split_ifs <;> rfl

/-- The report step advances exactly when some attempt succeeds, and then the report is in the
trace; otherwise it waits two seconds at the same stage. -/
theorem setConnected_result (s : WaitForAgentToConnectStep) (cluster : Cluster) (t : Trace)
    (ht : directorCalls t = 0) :
    (reportSucceeds s cluster ∧
      (s.setConnectedRuntimeStatusCondition cluster t).1 = { Stage := s.nextStep, Delay := 0 } ∧
      reportEvent cluster ∈ (s.setConnectedRuntimeStatusCondition cluster t).2) ∨
    ((∀ i, i < 3 → reportOutcome s cluster i ≠ none) ∧
      (s.setConnectedRuntimeStatusCondition cluster t).1 =
        { Stage := s.Name, Delay := 2 * Second } ∧
      directorCalls (s.setConnectedRuntimeStatusCondition cluster t).2 = 3) := by
  rw [setConnected_eq, ht]
  cases h0 : reportOutcome s cluster 0 with
  | none =>
    left
    exact ⟨⟨0, by decide, h0, fun j hj => absurd hj (Nat.not_lt_zero j)⟩, rfl, by simp⟩
  | some e0 =>
    cases h1 : reportOutcome s cluster 1 with
    | none =>
      left
      refine ⟨⟨1, by decide, h1, fun j hj => ?_⟩, by simp [h1], by simp [h1]⟩
      have hj0 : j = 0 := by omega
      simp [hj0, h0]
    | some e1 =>
      cases h2 : reportOutcome s cluster 2 with
      | none =>
        left
        refine ⟨⟨2, by decide, h2, fun j hj => ?_⟩, by simp [h1, h2], by simp [h1, h2]⟩
        have hj0 : j = 0 ∨ j = 1 := by omega
        rcases hj0 with hj0 | hj0 <;> simp [hj0, h0, h1]
      | some e2 =>
        right
        refine ⟨fun i hi => ?_, by simp [h1, h2], ?_⟩
        · have hi0 : i = 0 ∨ i = 1 ∨ i = 2 := by omega
          rcases hi0 with hi0 | hi0 | hi0 <;> simp [hi0, h0, h1, h2]
        · simp [h1, h2, directorCalls_append, directorCalls_cons, directorCalls_nil, ht,
            reportEvent, Event.isSetRuntimeStatusCondition]

/-- When the resource was fetched in a connected state, the invocation is the report step run on
a trace without director call, remediation call or sleep; it returns no error. -/
theorem Run_connected (k8s : K8s) (s : WaitForAgentToConnectStep) (cluster : Cluster)
    (op : Operation) (h : fetchedConnected k8s s cluster) :
    ∃ t : Trace, directorCalls t = 0 ∧ sleeps t = 0 ∧ configureCalls t = 0 ∧
      s.Run k8s cluster op =
        { result := (s.setConnectedRuntimeStatusCondition cluster t).1, err := none, step := s,
          trace := (s.setConnectedRuntimeStatusCondition cluster t).2 } := by
  obtain ⟨kc, cfg, client, cr, ⟨hk, hp, hc⟩, hg, hst⟩ := h
  refine ⟨[Event.newCompassConnectionClient cfg, Event.get defaultCompassConnectionName]
    ++ connectedWarning cr.Status.State, directorCalls_before_report cfg _, ?_, ?_,
    Run_of_connected k8s s cluster op kc cfg client cr hk hp hc hg hst⟩
  · unfold connectedWarning
    split_ifs <;> rfl
  · unfold connectedWarning
    split_ifs <;> rfl

/-- When the resource was not fetched in a connected state, the invocation returns an error or a
positive delay, leaves the step as it was, and neither reports to the director nor sleeps; it
makes at most one remediation call. -/
theorem Run_not_connected (k8s : K8s) (s : WaitForAgentToConnectStep) (cluster : Cluster)
    (op : Operation) (h : ¬ fetchedConnected k8s s cluster) :
    ((s.Run k8s cluster op).err ≠ none ∨ 0 < (s.Run k8s cluster op).result.Delay) ∧
    (s.Run k8s cluster op).step = s ∧
    directorCalls (s.Run k8s cluster op).trace = 0 ∧
    sleeps (s.Run k8s cluster op).trace = 0 ∧
    configureCalls (s.Run k8s cluster op).trace ≤ 1 := by
  rcases Run_cases k8s s cluster op with ⟨_, hr⟩ | ⟨kc, e, _, _, hr⟩ | ⟨kc, cfg, e, _, _, _, hr⟩ |
    ⟨kc, cfg, client, hcred, hr⟩
  · rw [hr]
    exact ⟨Or.inl (by simp), rfl, rfl, rfl, by simp [configureCalls, Event.isConfigureRuntime]⟩
  · rw [hr]
    exact ⟨Or.inl (by simp), rfl, rfl, rfl, by simp [configureCalls, Event.isConfigureRuntime]⟩
  · rw [hr]
    exact ⟨Or.inl (by simp), rfl, rfl, rfl, by simp [configureCalls, Event.isConfigureRuntime]⟩
  · rcases hr with ⟨e, _, _, hr⟩ | ⟨e, _, _, hr⟩ | ⟨cr, _, _, hr⟩ | ⟨cr, hg, hst, _⟩ |
      ⟨cr, _, _, _, hr⟩
    · rw [hr]
      exact ⟨Or.inr delays_pos.1, rfl, rfl, rfl, by simp [configureCalls, Event.isConfigureRuntime]⟩
    · rw [hr]
      exact ⟨Or.inl (by simp), rfl, rfl, rfl, by simp [configureCalls, Event.isConfigureRuntime]⟩
    · rw [hr]
      refine ⟨?_, rfl, rfl, rfl, by simp [configureCalls, Event.isConfigureRuntime]⟩
      cases s.runtimeConfigurator.ConfigureRuntime cluster kc with
      | none => exact Or.inr delays_pos.2.1
      | some e => exact Or.inl (by simp)
    · exact absurd ⟨kc, cfg, client, cr, hcred, hg, hst⟩ h
    · rw [hr]
      exact ⟨Or.inr delays_pos.2.2, rfl, rfl, rfl, by simp [configureCalls, Event.isConfigureRuntime]⟩

/-- What the report step adds to a trace in which nothing was reported yet: a suffix that starts
with a report, holds at most three reports with one sleep of five seconds between two of them,
and no remediation call.  Suffix and result depend on the director, the next step and the
cluster only. -/
theorem setConnected_suffix (s : WaitForAgentToConnectStep) (cluster : Cluster) :
    ∃ (r : StageResult) (u : Trace),
      (∀ t, directorCalls t = 0 →
        s.setConnectedRuntimeStatusCondition cluster t = (r, t ++ reportEvent cluster :: u)) ∧
      directorCalls (reportEvent cluster :: u) ≤ 3 ∧
      sleeps (reportEvent cluster :: u) + 1 = directorCalls (reportEvent cluster :: u) ∧
      configureCalls (reportEvent cluster :: u) = 0 ∧
      (∀ e ∈ reportEvent cluster :: u, e.isSleep = true → e = Event.sleep (5 * Second)) ∧
      (∀ s' : WaitForAgentToConnectStep, s'.directorClient = s.directorClient →
        s'.nextStep = s.nextStep → ∀ t, directorCalls t = 0 →
        s'.setConnectedRuntimeStatusCondition cluster t = (r, t ++ reportEvent cluster :: u)) := by
  have hout : ∀ s' : WaitForAgentToConnectStep, s'.directorClient = s.directorClient →
      ∀ i, reportOutcome s' cluster i = reportOutcome s cluster i := by
    intro s' hd i
    simp [reportOutcome, hd]
  cases h0 : reportOutcome s cluster 0 with
  | none =>
    refine ⟨{ Stage := s.nextStep, Delay := 0 }, [], ?_, ?_, ?_, ?_, ?_, ?_⟩
    · intro t ht
      rw [setConnected_eq, ht, h0]
    · simp [directorCalls, reportEvent, Event.isSetRuntimeStatusCondition]
    · simp [directorCalls, sleeps, reportEvent, Event.isSetRuntimeStatusCondition, Event.isSleep]
    · simp [configureCalls, reportEvent, Event.isConfigureRuntime]
    · simp [reportEvent, Event.isSleep]
    · intro s' hd hn t ht
      rw [setConnected_eq, ht, hout s' hd, h0, hn]
  | some e0 =>
    cases h1 : reportOutcome s cluster 1 with
    | none =>
      refine ⟨{ Stage := s.nextStep, Delay := 0 },
        [Event.sleep (5 * Second), reportEvent cluster], ?_, ?_, ?_, ?_, ?_, ?_⟩
      · intro t ht
        rw [setConnected_eq, ht, h0]
        simp [h1]
      · simp [directorCalls, reportEvent, Event.isSetRuntimeStatusCondition]
      · simp [directorCalls, sleeps, reportEvent, Event.isSetRuntimeStatusCondition,
          Event.isSleep]
      · simp [configureCalls, reportEvent, Event.isConfigureRuntime]
      · simp [reportEvent, Event.isSleep]
      · intro s' hd hn t ht
        rw [setConnected_eq, ht, hout s' hd, h0]
        simp [hout s' hd, h1, hn]
    | some e1 =>
      cases h2 : reportOutcome s cluster 2 with
      | none =>
        refine ⟨{ Stage := s.nextStep, Delay := 0 },
          [Event.sleep (5 * Second), reportEvent cluster, Event.sleep (5 * Second),
            reportEvent cluster], ?_, ?_, ?_, ?_, ?_, ?_⟩
        · intro t ht
          rw [setConnected_eq, ht, h0]
          simp [h1, h2]
        · simp [directorCalls, reportEvent, Event.isSetRuntimeStatusCondition]
        · simp [directorCalls, sleeps, reportEvent, Event.isSetRuntimeStatusCondition,
            Event.isSleep]
        · simp [configureCalls, reportEvent, Event.isConfigureRuntime]
        · simp [reportEvent, Event.isSleep]
        · intro s' hd hn t ht
          rw [setConnected_eq, ht, hout s' hd, h0]
          simp [hout s' hd, h1, h2, hn]
      | some e2 =>
        refine ⟨{ Stage := s.Name, Delay := 2 * Second },
          [Event.sleep (5 * Second), reportEvent cluster, Event.sleep (5 * Second),
            reportEvent cluster,
            Event.log LogLevel.error
              ("Failed to set runtime " ++ RuntimeStatusConditionConnected
                ++ " status condition: " ++ e2.Error)], ?_, ?_, ?_, ?_, ?_, ?_⟩
        · intro t ht
          rw [setConnected_eq, ht, h0]
          simp [h1, h2]
        · simp [directorCalls, reportEvent, Event.isSetRuntimeStatusCondition]
        · simp [directorCalls, sleeps, reportEvent, Event.isSetRuntimeStatusCondition,
            Event.isSleep]
        · simp [configureCalls, reportEvent, Event.isConfigureRuntime]
        · simp [reportEvent, Event.isSleep]
        · intro s' hd hn t ht
          rw [setConnected_eq, ht, hout s' hd, h0]
          simp [hout s' hd, h1, h2, WaitForAgentToConnectStep.Name]

/-- Sleeps of a concatenation. -/
theorem sleeps_append (t u : Trace) : sleeps (t ++ u) = sleeps t + sleeps u := by
  simp [sleeps]

/-- Remediation calls of a concatenation. -/
theorem configureCalls_append (t u : Trace) :
    configureCalls (t ++ u) = configureCalls t + configureCalls u := by
  simp [configureCalls]

/-- A trace that counts no sleep holds no sleep event. -/
theorem not_isSleep_of_sleeps_zero {t : Trace} (h : sleeps t = 0) {e : Event} (he : e ∈ t) :
    ¬ e.isSleep = true := by
  have h0 := List.countP_eq_zero.mp h
  exact h0 e he

/-- Bounds that hold for every invocation: the step is left as it was; at most one remediation
call and at most three directory reports are made; a sleep happens only between two consecutive
reports and lasts five seconds. -/
theorem Run_bounds (k8s : K8s) (s : WaitForAgentToConnectStep) (cluster : Cluster)
    (op : Operation) :
    (s.Run k8s cluster op).step = s ∧
    configureCalls (s.Run k8s cluster op).trace ≤ 1 ∧
    directorCalls (s.Run k8s cluster op).trace ≤ 3 ∧
    sleeps (s.Run k8s cluster op).trace = directorCalls (s.Run k8s cluster op).trace - 1 ∧
    (∀ e ∈ (s.Run k8s cluster op).trace, e.isSleep = true → e = Event.sleep (5 * Second)) := by
  by_cases hf : fetchedConnected k8s s cluster
  · obtain ⟨t, ht, hts, htc, hr⟩ := Run_connected k8s s cluster op hf
    obtain ⟨r, u, hrun, hd, hsl, hcf, hev, _⟩ := setConnected_suffix s cluster
    rw [hr, hrun t ht]
    refine ⟨rfl, ?_, ?_, ?_, ?_⟩
    · show configureCalls (t ++ reportEvent cluster :: u) ≤ 1
      rw [configureCalls_append, htc, hcf]
      decide
    · show directorCalls (t ++ reportEvent cluster :: u) ≤ 3
      rw [directorCalls_append, ht]
      omega
    · show sleeps (t ++ reportEvent cluster :: u) =
        directorCalls (t ++ reportEvent cluster :: u) - 1
      rw [directorCalls_append, sleeps_append, ht, hts]
      omega
    · intro e he hsleep
      have he' : e ∈ t ++ reportEvent cluster :: u := he
      rcases List.mem_append.mp he' with h | h
      · exact absurd hsleep (not_isSleep_of_sleeps_zero hts h)
      · exact hev e h hsleep
  · obtain ⟨_, hstep, hd, hsl, hcf⟩ := Run_not_connected k8s s cluster op hf
    refine ⟨hstep, hcf, by omega, by omega, ?_⟩
    intro e he hsleep
    exact absurd hsleep (not_isSleep_of_sleeps_zero hsl he)

/-- With usable credentials, only the fetch and the remediation can make `Run` fail. -/
theorem hardErrorCondition_of_usable {k8s : K8s} {s : WaitForAgentToConnectStep}
    {cluster : Cluster} {kc : String} {cfg : RestConfig} {client : CompassConnectionInterface}
    (hcred : usableCredentials k8s s cluster kc cfg client) :
    hardErrorCondition k8s s cluster ↔
      (∃ e, client.Get defaultCompassConnectionName = .error e ∧ IsNotFound e = false) ∨
      (∃ cr e, client.Get defaultCompassConnectionName = .ok cr ∧
        cr.Status.State = ConnectionFailed ∧
        s.runtimeConfigurator.ConfigureRuntime cluster kc = some e) := by
  constructor
  · rintro (h | ⟨kc', e', hk', hp'⟩ | ⟨kc', cfg', e', hk', hp', hc'⟩ |
      ⟨kc', cfg', client', e', hcred', hg', hnf'⟩ |
      ⟨kc', cfg', client', cr', e', hcred', hg', hst', hcfg'⟩)
    · rw [hcred.1] at h
      cases h
    · have e1 : kc = kc' := Option.some.inj (hcred.1.symm.trans hk')
      subst e1
      rw [hcred.2.1] at hp'
      cases hp'
    · have e1 : kc = kc' := Option.some.inj (hcred.1.symm.trans hk')
      subst e1
      have e2 : cfg = cfg' := Except.ok.inj (hcred.2.1.symm.trans hp')
      subst e2
      rw [hcred.2.2] at hc'
      cases hc'
    · obtain ⟨rfl, rfl, rfl⟩ := usableCredentials_unique hcred hcred'
      exact Or.inl ⟨e', hg', hnf'⟩
    · obtain ⟨rfl, rfl, rfl⟩ := usableCredentials_unique hcred hcred'
      exact Or.inr ⟨cr', e', hg', hst', hcfg'⟩
  · rintro (⟨e, hg, hnf⟩ | ⟨cr, e, hg, hst, hcfg⟩)
    · exact Or.inr (Or.inr (Or.inr (Or.inl ⟨kc, cfg, client, e, hcred, hg, hnf⟩)))
    · exact Or.inr (Or.inr (Or.inr (Or.inr ⟨kc, cfg, client, cr, e, hcred, hg, hst, hcfg⟩)))

/-- The error of `Run` and the five failure conditions go together, and an error comes with the
zero result. -/
theorem Run_err_iff (k8s : K8s) (s : WaitForAgentToConnectStep) (cluster : Cluster)
    (op : Operation) :
    ((s.Run k8s cluster op).err ≠ none ↔ hardErrorCondition k8s s cluster) ∧
    ((s.Run k8s cluster op).err ≠ none → (s.Run k8s cluster op).result = StageResult.zero) := by
  rcases Run_cases k8s s cluster op with ⟨hk, hr⟩ | ⟨kc, e, hk, hp, hr⟩ |
    ⟨kc, cfg, e, hk, hp, hc, hr⟩ | ⟨kc, cfg, client, hcred, hr⟩
  · rw [hr]
    exact ⟨⟨fun _ => Or.inl hk, fun _ => by simp⟩, fun _ => rfl⟩
  · rw [hr]
    exact ⟨⟨fun _ => Or.inr (Or.inl ⟨kc, e, hk, hp⟩), fun _ => by simp⟩, fun _ => rfl⟩
  · rw [hr]
    exact ⟨⟨fun _ => Or.inr (Or.inr (Or.inl ⟨kc, cfg, e, hk, hp, hc⟩)), fun _ => by simp⟩,
      fun _ => rfl⟩
  · rw [hardErrorCondition_of_usable hcred]
    rcases hr with ⟨e, hg, hnf, hr⟩ | ⟨e, hg, hnf, hr⟩ | ⟨cr, hg, hst, hr⟩ | ⟨cr, hg, hst, hr⟩ |
      ⟨cr, hg, hst, _, hr⟩
    · rw [hr]
      refine ⟨⟨fun h => absurd rfl h, ?_⟩, fun h => absurd rfl h⟩
      rintro (⟨e', hg', hnf'⟩ | ⟨cr', e', hg', _, _⟩)
      · rw [hg] at hg'
        have e1 : e = e' := Except.error.inj hg'
        subst e1
        rw [hnf] at hnf'
        cases hnf'
      · rw [hg] at hg'
        cases hg'
    · rw [hr]
      exact ⟨⟨fun _ => Or.inl ⟨e, hg, hnf⟩, fun _ => by simp⟩, fun _ => rfl⟩
    · rw [hr]
      cases hcfg : s.runtimeConfigurator.ConfigureRuntime cluster kc with
      | none =>
        refine ⟨⟨fun h => absurd rfl h, ?_⟩, fun h => absurd rfl h⟩
        rintro (⟨e', hg', _⟩ | ⟨cr', e', _, _, hcfg'⟩)
        · rw [hg] at hg'
          cases hg'
        · cases hcfg'
      | some e =>
        exact ⟨⟨fun _ => Or.inr ⟨cr, e, hg, hst, rfl⟩, fun _ => by simp⟩, fun _ => rfl⟩
    · rw [hr]
      refine ⟨⟨fun h => absurd rfl h, ?_⟩, fun h => absurd rfl h⟩
      rintro (⟨e', hg', _⟩ | ⟨cr', e', hg', hst', _⟩)
      · rw [hg] at hg'
        cases hg'
      · rw [hg] at hg'
        have e1 : cr = cr' := Except.ok.inj hg'
        subst e1
        obtain ⟨h1, h2, h3, _, _, _⟩ := states_distinct
        rcases hst with h | h | h
        · exact (h3 (h.symm.trans hst')).elim
        · exact (h1 (h.symm.trans hst')).elim
        · exact (h2 (h.symm.trans hst')).elim
    · rw [hr]
      refine ⟨⟨fun h => absurd rfl h, ?_⟩, fun h => absurd rfl h⟩
      rintro (⟨e', hg', _⟩ | ⟨cr', e', hg', hst', _⟩)
      · rw [hg] at hg'
        cases hg'
      · rw [hg] at hg'
        have e1 : cr = cr' := Except.ok.inj hg'
        subst e1
        exact (hst hst').elim

/-- External calls of a concatenation. -/
theorem externalCalls_append (t u : Trace) :
    externalCalls (t ++ u) = externalCalls t ++ externalCalls u := by
  simp [externalCalls]

/-- The warning logged before the report is no external call. -/
theorem externalCalls_connectedWarning (st : ConnectionState) :
    externalCalls (connectedWarning st) = [] := by
  unfold connectedWarning
  split_ifs <;> rfl

/-- The `Operation` argument is not looked at by `Run`. -/
theorem Run_operation_irrelevant (k8s : K8s) (s : WaitForAgentToConnectStep) (cluster : Cluster)
    (op op' : Operation) : s.Run k8s cluster op = s.Run k8s cluster op' := rfl

/-- When the first report of an invocation would succeed, the invocation does not sleep. -/
theorem Run_no_sleep_of_first_report (k8s : K8s) (s : WaitForAgentToConnectStep)
    (cluster : Cluster) (op : Operation) (h0 : reportOutcome s cluster 0 = none) :
    sleeps (s.Run k8s cluster op).trace = 0 := by
  by_cases hf : fetchedConnected k8s s cluster
  · obtain ⟨t, ht, hts, _, hr⟩ := Run_connected k8s s cluster op hf
    rw [hr, setConnected_eq, ht, h0]
    show sleeps (t ++ [reportEvent cluster]) = 0
    rw [sleeps_append, hts]
    rfl
  · exact (Run_not_connected k8s s cluster op hf).2.2.2.1

/-! ## The claims -/

/-- C1, as stated, fails: with usable credentials and a fetched state `ConnectionFailed` (which is
none of `Synchronized`, `SynchronizationFailed`, `MetadataUpdateFailed`), a failing remediation
call makes `Run` return an error together with the zero `StageResult`, whose delay is not
positive. -/
theorem C1_counterexample :
    usableCredentials sampleK8s
      (sampleStep (fetchedState ConnectionFailed) (some sampleFailure) (fun _ => none))
      sampleCluster "kubeconfig" { data := "kubeconfig" }
      (sampleClient (fetchedState ConnectionFailed)) ∧
    (sampleClient (fetchedState ConnectionFailed)).Get "compass-connection" =
      .ok { Status := { State := ConnectionFailed } } ∧
    ¬ isConnectedState ConnectionFailed ∧
    ((sampleStep (fetchedState ConnectionFailed) (some sampleFailure) (fun _ => none)).Run
        sampleK8s sampleCluster sampleOperation).ret =
      ({ Stage := "", Delay := 0 },
        some (Err.Append sampleFailure
          "error: Compass Connection is in Failed state: reconfigure runtime faiure")) ∧
    ¬ (((sampleStep (fetchedState ConnectionFailed) (some sampleFailure) (fun _ => none)).Run
          sampleK8s sampleCluster sampleOperation).err = none ∧
        ((sampleStep (fetchedState ConnectionFailed) (some sampleFailure) (fun _ => none)).Run
          sampleK8s sampleCluster sampleOperation).result.Stage =
          (sampleStep (fetchedState ConnectionFailed) (some sampleFailure) (fun _ => none)).Name ∧
        0 < ((sampleStep (fetchedState ConnectionFailed) (some sampleFailure)
          (fun _ => none)).Run sampleK8s sampleCluster sampleOperation).result.Delay) := by
  refine ⟨⟨rfl, rfl, rfl⟩, rfl, by decide, by decide, by decide⟩

/-- C1, amended: with usable credentials, when the resource is not found, or is fetched in a state
other than `Synchronized`, `SynchronizationFailed` and `MetadataUpdateFailed` and, should that
state be `ConnectionFailed`, the remediation call succeeds, `Run` returns no error and a result
whose stage is the step's own `Name()` and whose delay is strictly positive. -/
theorem C1_waits_at_same_stage (k8s : K8s) (s : WaitForAgentToConnectStep) (cluster : Cluster)
    (op : Operation) (kc : String) (cfg : RestConfig) (client : CompassConnectionInterface)
    (hcred : usableCredentials k8s s cluster kc cfg client)
    (hclass : (∃ e, client.Get "compass-connection" = .error e ∧ IsNotFound e = true) ∨
      (∃ cr, client.Get "compass-connection" = .ok cr ∧ ¬ isConnectedState cr.Status.State ∧
        (cr.Status.State = ConnectionFailed →
          s.runtimeConfigurator.ConfigureRuntime cluster kc = none))) :
    (s.Run k8s cluster op).err = none ∧
    (s.Run k8s cluster op).result.Stage = s.Name ∧
    0 < (s.Run k8s cluster op).result.Delay := by
  obtain ⟨hk, hp, hc⟩ := hcred
  rcases hclass with ⟨e, hg, hnf⟩ | ⟨cr, hg, hncon, hrem⟩
  · rw [Run_of_not_found k8s s cluster op kc cfg client e hk hp hc hg hnf]
    exact ⟨rfl, rfl, delays_pos.1⟩
  · by_cases hcf : cr.Status.State = ConnectionFailed
    · rw [Run_of_connection_failed k8s s cluster op kc cfg client cr hk hp hc hg hcf, hrem hcf]
      exact ⟨rfl, rfl, delays_pos.2.1⟩
    · simp only [isConnectedState, not_or] at hncon
      rw [Run_of_converging k8s s cluster op kc cfg client cr hk hp hc hg hcf hncon.2.1
        hncon.2.2 hncon.1]
      exact ⟨rfl, rfl, delays_pos.2.2⟩

/-- A use of the amended C1: an unrecognised state keeps the operation at the stage. -/
theorem C1_waits_at_same_stage_witness :
    ((sampleStep (fetchedState "Connected") (some sampleFailure) (fun _ => none)).Run
        sampleK8s sampleCluster sampleOperation).err = none ∧
    ((sampleStep (fetchedState "Connected") (some sampleFailure) (fun _ => none)).Run
        sampleK8s sampleCluster sampleOperation).result.Stage = "WaitForAgentToConnect" ∧
    0 < ((sampleStep (fetchedState "Connected") (some sampleFailure) (fun _ => none)).Run
        sampleK8s sampleCluster sampleOperation).result.Delay :=
  C1_waits_at_same_stage sampleK8s
    (sampleStep (fetchedState "Connected") (some sampleFailure) (fun _ => none))
    sampleCluster sampleOperation "kubeconfig" { data := "kubeconfig" }
    (sampleClient (fetchedState "Connected")) ⟨rfl, rfl, rfl⟩
    (Or.inr ⟨{ Status := { State := "Connected" } }, rfl, by decide, by decide⟩)

/-- C2: with usable credentials and a fetched state `ConnectionFailed`, `Run` calls
`ConfigureRuntime` exactly once, with the cluster and its kubeconfig, and never calls the
director; if the remediation succeeds `Run` returns `{Name(), 2 minutes}` without error, and if it
fails `Run` returns an error and the zero result. -/
theorem C2_connection_failed_remediates (k8s : K8s) (s : WaitForAgentToConnectStep)
    (cluster : Cluster) (op : Operation) (kc : String) (cfg : RestConfig)
    (client : CompassConnectionInterface) (cr : CompassConnection)
    (hcred : usableCredentials k8s s cluster kc cfg client)
    (hg : client.Get "compass-connection" = .ok cr)
    (hst : cr.Status.State = ConnectionFailed) :
    (s.Run k8s cluster op).trace.filter Event.isConfigureRuntime =
      [Event.configureRuntime cluster kc] ∧
    directorCalls (s.Run k8s cluster op).trace = 0 ∧
    (s.runtimeConfigurator.ConfigureRuntime cluster kc = none →
      (s.Run k8s cluster op).ret = ({ Stage := s.Name, Delay := 2 * Minute }, none)) ∧
    (∀ e, s.runtimeConfigurator.ConfigureRuntime cluster kc = some e →
      (s.Run k8s cluster op).err ≠ none ∧ (s.Run k8s cluster op).result = StageResult.zero) := by
  obtain ⟨hk, hp, hc⟩ := hcred
  rw [Run_of_connection_failed k8s s cluster op kc cfg client cr hk hp hc hg hst]
  refine ⟨by simp [Event.isConfigureRuntime], by simp [directorCalls,
    Event.isSetRuntimeStatusCondition], ?_, ?_⟩
  · intro h
    simp [RunOutcome.ret, h]
  · intro e h
    simp [h]

/-- A use of C2 where the remediation succeeds: the stage waits two minutes. -/
theorem C2_connection_failed_remediates_witness :
    ((sampleStep (fetchedState ConnectionFailed) none (fun _ => none)).Run
        sampleK8s sampleCluster sampleOperation).ret =
      ({ Stage := "WaitForAgentToConnect", Delay := 120000000000 }, none) :=
  (C2_connection_failed_remediates sampleK8s
    (sampleStep (fetchedState ConnectionFailed) none (fun _ => none))
    sampleCluster sampleOperation "kubeconfig" { data := "kubeconfig" }
    (sampleClient (fetchedState ConnectionFailed)) { Status := { State := ConnectionFailed } }
    ⟨rfl, rfl, rfl⟩ rfl rfl).2.2.1 rfl

/-- C3: with usable credentials, when fetching "compass-connection" fails with a not-found error,
`Run` returns `{Name(), 5 seconds}` without error and calls neither `ConfigureRuntime` nor
`SetRuntimeStatusCondition`. -/
theorem C3_not_found_waits (k8s : K8s) (s : WaitForAgentToConnectStep) (cluster : Cluster)
    (op : Operation) (kc : String) (cfg : RestConfig) (client : CompassConnectionInterface)
    (e : Err)
    (hcred : usableCredentials k8s s cluster kc cfg client)
    (hg : client.Get "compass-connection" = .error e) (hnf : IsNotFound e = true) :
    (s.Run k8s cluster op).ret = ({ Stage := s.Name, Delay := 5 * Second }, none) ∧
    configureCalls (s.Run k8s cluster op).trace = 0 ∧
    directorCalls (s.Run k8s cluster op).trace = 0 := by
  obtain ⟨hk, hp, hc⟩ := hcred
  rw [Run_of_not_found k8s s cluster op kc cfg client e hk hp hc hg hnf]
  exact ⟨rfl, rfl, rfl⟩

/-- A use of C3: a resource that is not there yet. -/
theorem C3_not_found_waits_witness :
    ((sampleStep (.error sampleNotFound) none (fun _ => none)).Run
        sampleK8s sampleCluster sampleOperation).ret =
      ({ Stage := "WaitForAgentToConnect", Delay := 5000000000 }, none) ∧
    configureCalls ((sampleStep (.error sampleNotFound) none (fun _ => none)).Run
        sampleK8s sampleCluster sampleOperation).trace = 0 ∧
    directorCalls ((sampleStep (.error sampleNotFound) none (fun _ => none)).Run
        sampleK8s sampleCluster sampleOperation).trace = 0 :=
  C3_not_found_waits sampleK8s (sampleStep (.error sampleNotFound) none (fun _ => none))
    sampleCluster sampleOperation "kubeconfig" { data := "kubeconfig" }
    (sampleClient (.error sampleNotFound)) sampleNotFound ⟨rfl, rfl, rfl⟩ rfl rfl

/-- C8: with usable credentials and a fetched state that is none of `ConnectionFailed`,
`SynchronizationFailed`, `MetadataUpdateFailed` and `Synchronized`, `Run` returns
`{Name(), 2 seconds}` without error and calls neither `ConfigureRuntime` nor
`SetRuntimeStatusCondition`. -/
theorem C8_other_state_waits (k8s : K8s) (s : WaitForAgentToConnectStep) (cluster : Cluster)
    (op : Operation) (kc : String) (cfg : RestConfig) (client : CompassConnectionInterface)
    (cr : CompassConnection)
    (hcred : usableCredentials k8s s cluster kc cfg client)
    (hg : client.Get "compass-connection" = .ok cr)
    (h1 : cr.Status.State ≠ ConnectionFailed) (h2 : cr.Status.State ≠ SynchronizationFailed)
    (h3 : cr.Status.State ≠ MetadataUpdateFailed) (h4 : cr.Status.State ≠ Synchronized) :
    (s.Run k8s cluster op).ret = ({ Stage := s.Name, Delay := 2 * Second }, none) ∧
    configureCalls (s.Run k8s cluster op).trace = 0 ∧
    directorCalls (s.Run k8s cluster op).trace = 0 := by
  obtain ⟨hk, hp, hc⟩ := hcred
  rw [Run_of_converging k8s s cluster op kc cfg client cr hk hp hc hg h1 h2 h3 h4]
  exact ⟨rfl, rfl, rfl⟩

/-- A use of C8 at the empty state. -/
theorem C8_other_state_waits_witness :
    ((sampleStep (fetchedState "") none (fun _ => none)).Run
        sampleK8s sampleCluster sampleOperation).ret =
      ({ Stage := "WaitForAgentToConnect", Delay := 2000000000 }, none) ∧
    configureCalls ((sampleStep (fetchedState "") none (fun _ => none)).Run
        sampleK8s sampleCluster sampleOperation).trace = 0 ∧
    directorCalls ((sampleStep (fetchedState "") none (fun _ => none)).Run
        sampleK8s sampleCluster sampleOperation).trace = 0 :=
  C8_other_state_waits sampleK8s (sampleStep (fetchedState "") none (fun _ => none))
    sampleCluster sampleOperation "kubeconfig" { data := "kubeconfig" }
    (sampleClient (fetchedState "")) { Status := { State := "" } } ⟨rfl, rfl, rfl⟩ rfl
    (by decide) (by decide) (by decide) (by decide)

/-- C4: `Run` returns `{nextStep, 0}` without error if and only if the resource was fetched (with
usable credentials) in state `Synchronized`, `SynchronizationFailed` or `MetadataUpdateFailed`
and one of the at most three attempts of
`SetRuntimeStatusCondition(cluster.ID, Connected, cluster.Tenant)` succeeded, all earlier ones
having failed; whenever `Run` advances, that report is in the trace of the invocation; and `Run`
advances whenever the state is `Synchronized` and the first attempt succeeds. -/
theorem C4_advances_iff_reported (k8s : K8s) (s : WaitForAgentToConnectStep) (cluster : Cluster)
    (op : Operation) :
    ((s.Run k8s cluster op).ret = ({ Stage := s.nextStep, Delay := 0 }, none) ↔
      ∃ kc cfg client cr, usableCredentials k8s s cluster kc cfg client ∧
        client.Get "compass-connection" = .ok cr ∧
        (cr.Status.State = Synchronized ∨ cr.Status.State = SynchronizationFailed ∨
          cr.Status.State = MetadataUpdateFailed) ∧
        ∃ i, i < 3 ∧
          s.directorClient.SetRuntimeStatusCondition i cluster.ID RuntimeStatusConditionConnected
            cluster.Tenant = none ∧
          ∀ j, j < i →
            s.directorClient.SetRuntimeStatusCondition j cluster.ID
              RuntimeStatusConditionConnected cluster.Tenant ≠ none) ∧
    ((s.Run k8s cluster op).ret = ({ Stage := s.nextStep, Delay := 0 }, none) →
      Event.setRuntimeStatusCondition cluster.ID RuntimeStatusConditionConnected cluster.Tenant
        ∈ (s.Run k8s cluster op).trace) ∧
    (∀ kc cfg client cr, usableCredentials k8s s cluster kc cfg client →
      client.Get "compass-connection" = .ok cr → cr.Status.State = Synchronized →
      s.directorClient.SetRuntimeStatusCondition 0 cluster.ID RuntimeStatusConditionConnected
        cluster.Tenant = none →
      (s.Run k8s cluster op).ret = ({ Stage := s.nextStep, Delay := 0 }, none)) := by
  have key : ((s.Run k8s cluster op).ret = ({ Stage := s.nextStep, Delay := 0 }, none) ↔
      fetchedConnected k8s s cluster ∧ reportSucceeds s cluster) ∧
      ((s.Run k8s cluster op).ret = ({ Stage := s.nextStep, Delay := 0 }, none) →
        reportEvent cluster ∈ (s.Run k8s cluster op).trace) := by
    by_cases hf : fetchedConnected k8s s cluster
    · obtain ⟨t, ht, _, _, hr⟩ := Run_connected k8s s cluster op hf
      have hret : (s.Run k8s cluster op).ret =
          ((s.setConnectedRuntimeStatusCondition cluster t).1, none) := by
        rw [hr]
        rfl
      have htr : (s.Run k8s cluster op).trace =
          (s.setConnectedRuntimeStatusCondition cluster t).2 := by
        rw [hr]
      rw [hret, htr]
      rcases setConnected_result s cluster t ht with ⟨hs, hres, hmem⟩ | ⟨hall, hres, _⟩
      · exact ⟨⟨fun _ => ⟨hf, hs⟩, fun _ => by rw [hres]⟩, fun _ => hmem⟩
      · have hne : ¬ ((s.setConnectedRuntimeStatusCondition cluster t).1, (none : Option Err)) =
            ({ Stage := s.nextStep, Delay := 0 }, none) := by
          rw [hres]
          intro h
          have hd : (2 * Second : Duration) = 0 := congrArg (fun p => p.1.Delay) h
          exact absurd hd (by decide)
        refine ⟨⟨fun h => absurd h hne, fun h => ?_⟩, fun h => absurd h hne⟩
        obtain ⟨_, i, hi, hnone, _⟩ := h
        exact absurd hnone (hall i hi)
    · obtain ⟨hbad, _, _, _, _⟩ := Run_not_connected k8s s cluster op hf
      have hne : ¬ (s.Run k8s cluster op).ret = ({ Stage := s.nextStep, Delay := 0 }, none) := by
        intro h
        simp only [RunOutcome.ret, Prod.mk.injEq] at h
        rcases hbad with hb | hb
        · exact hb h.2
        · rw [h.1] at hb
          exact absurd hb (lt_irrefl (0 : Int))
      exact ⟨⟨fun h => absurd h hne, fun h => absurd h.1 hf⟩, fun h => absurd h hne⟩
  refine ⟨?_, key.2, ?_⟩
  · rw [key.1]
    constructor
    · rintro ⟨⟨kc, cfg, client, cr, hcred, hg, hst⟩, hs⟩
      exact ⟨kc, cfg, client, cr, hcred, hg, hst, hs⟩
    · rintro ⟨kc, cfg, client, cr, hcred, hg, hst, hs⟩
      exact ⟨⟨kc, cfg, client, cr, hcred, hg, hst⟩, hs⟩
  · intro kc cfg client cr hcred hg hst h0
    exact key.1.2 ⟨⟨kc, cfg, client, cr, hcred, hg, Or.inl hst⟩,
      ⟨0, by decide, h0, fun j hj => absurd hj (Nat.not_lt_zero j)⟩⟩

/-- A use of C4: `SynchronizationFailed` with a report that succeeds on the second attempt
advances to the next step at once. -/
theorem C4_advances_iff_reported_witness :
    ((sampleStep (fetchedState SynchronizationFailed) none
        (fun n => if n < 1 then some sampleFailure else none)).Run
        sampleK8s sampleCluster sampleOperation).ret =
      ({ Stage := "NextStep", Delay := 0 }, none) :=
  (C4_advances_iff_reported sampleK8s
    (sampleStep (fetchedState SynchronizationFailed) none
      (fun n => if n < 1 then some sampleFailure else none))
    sampleCluster sampleOperation).1.2
    ⟨"kubeconfig", { data := "kubeconfig" }, sampleClient (fetchedState SynchronizationFailed),
      { Status := { State := SynchronizationFailed } }, ⟨rfl, rfl, rfl⟩, rfl,
      Or.inr (Or.inl rfl), 1, by decide, rfl, by decide⟩

/-- C5: with usable credentials and a fetched state `SynchronizationFailed`, `Synchronized` or
`MetadataUpdateFailed`, when each of the three attempts of `SetRuntimeStatusCondition` fails,
`Run` makes exactly those three attempts and returns `{Name(), 2 seconds}` without error. -/
theorem C5_report_failure_waits (k8s : K8s) (s : WaitForAgentToConnectStep) (cluster : Cluster)
    (op : Operation) (kc : String) (cfg : RestConfig) (client : CompassConnectionInterface)
    (cr : CompassConnection)
    (hcred : usableCredentials k8s s cluster kc cfg client)
    (hg : client.Get "compass-connection" = .ok cr)
    (hst : cr.Status.State = SynchronizationFailed ∨ cr.Status.State = Synchronized ∨
      cr.Status.State = MetadataUpdateFailed)
    (hfail : ∀ i, i < 3 →
      s.directorClient.SetRuntimeStatusCondition i cluster.ID RuntimeStatusConditionConnected
        cluster.Tenant ≠ none) :
    (s.Run k8s cluster op).ret = ({ Stage := s.Name, Delay := 2 * Second }, none) ∧
    directorCalls (s.Run k8s cluster op).trace = 3 := by
  have hf : fetchedConnected k8s s cluster :=
    ⟨kc, cfg, client, cr, hcred, hg, by
      rcases hst with h | h | h
      · exact Or.inr (Or.inl h)
      · exact Or.inl h
      · exact Or.inr (Or.inr h)⟩
  obtain ⟨t, ht, _, _, hr⟩ := Run_connected k8s s cluster op hf
  rw [hr]
  rcases setConnected_result s cluster t ht with ⟨⟨i, hi, hnone, _⟩, _, _⟩ | ⟨_, hres, hcalls⟩
  · exact absurd hnone (hfail i hi)
  · exact ⟨by simp [RunOutcome.ret, hres], hcalls⟩

/-- A use of C5: a director that is down. -/
theorem C5_report_failure_waits_witness :
    ((sampleStep (fetchedState SynchronizationFailed) none (fun _ => some sampleFailure)).Run
        sampleK8s sampleCluster sampleOperation).ret =
      ({ Stage := "WaitForAgentToConnect", Delay := 2000000000 }, none) ∧
    directorCalls ((sampleStep (fetchedState SynchronizationFailed) none
        (fun _ => some sampleFailure)).Run sampleK8s sampleCluster sampleOperation).trace = 3 :=
  C5_report_failure_waits sampleK8s
    (sampleStep (fetchedState SynchronizationFailed) none (fun _ => some sampleFailure))
    sampleCluster sampleOperation "kubeconfig" { data := "kubeconfig" }
    (sampleClient (fetchedState SynchronizationFailed))
    { Status := { State := SynchronizationFailed } } ⟨rfl, rfl, rfl⟩ rfl (Or.inl rfl)
    (fun _ _ => by simp [sampleStep, NewWaitForAgentToConnectStep])

/-- C6: take a step and the same step with another client constructor, both with usable
credentials for the cluster.  If the first fetches `SynchronizationFailed` or
`MetadataUpdateFailed` and the second fetches `Synchronized`, the two invocations of `Run` return
the same `(result, error)` pair and make the same external calls in the same order, whatever the
director answers; the first one does report to the director. -/
theorem C6_warning_states_as_synchronized (k8s : K8s) (s : WaitForAgentToConnectStep)
    (ctor : CompassConnectionClientConstructor) (cluster : Cluster) (op : Operation)
    (kc : String) (cfg : RestConfig) (client client' : CompassConnectionInterface)
    (cr cr' : CompassConnection)
    (hcred : usableCredentials k8s s cluster kc cfg client)
    (hcred' : usableCredentials k8s { s with newCompassConnectionClient := ctor } cluster kc cfg
      client')
    (hg : client.Get "compass-connection" = .ok cr)
    (hst : cr.Status.State = SynchronizationFailed ∨ cr.Status.State = MetadataUpdateFailed)
    (hg' : client'.Get "compass-connection" = .ok cr')
    (hst' : cr'.Status.State = Synchronized) :
    (s.Run k8s cluster op).ret =
      (({ s with newCompassConnectionClient := ctor } : WaitForAgentToConnectStep).Run k8s
        cluster op).ret ∧
    externalCalls (s.Run k8s cluster op).trace =
      externalCalls (({ s with newCompassConnectionClient := ctor } :
        WaitForAgentToConnectStep).Run k8s cluster op).trace ∧
    Event.setRuntimeStatusCondition cluster.ID RuntimeStatusConditionConnected cluster.Tenant
      ∈ (s.Run k8s cluster op).trace := by
  obtain ⟨r, u, hrun, _, _, _, _, hrun'⟩ := setConnected_suffix s cluster
  rw [Run_of_connected k8s s cluster op kc cfg client cr hcred.1 hcred.2.1 hcred.2.2 hg
      (Or.inr hst),
    Run_of_connected k8s { s with newCompassConnectionClient := ctor } cluster op kc cfg client'
      cr' hcred'.1 hcred'.2.1 hcred'.2.2 hg' (Or.inl hst'),
    hrun _ (directorCalls_before_report cfg _),
    hrun' { s with newCompassConnectionClient := ctor } rfl rfl _
      (directorCalls_before_report cfg _)]
  refine ⟨rfl, ?_, ?_⟩
  · show externalCalls (_ ++ _ ++ _) = externalCalls (_ ++ _ ++ _)
    simp only [externalCalls_append, externalCalls_connectedWarning]
  · show reportEvent cluster ∈ _ ++ reportEvent cluster :: u
    simp

/-- A use of C6: `MetadataUpdateFailed` against `Synchronized`, with a director that answers on
the third attempt. -/
theorem C6_warning_states_as_synchronized_witness :
    ((sampleStep (fetchedState MetadataUpdateFailed) none
        (fun n => if n < 2 then some sampleFailure else none)).Run
        sampleK8s sampleCluster sampleOperation).ret =
      ((sampleStep (fetchedState Synchronized) none
        (fun n => if n < 2 then some sampleFailure else none)).Run
        sampleK8s sampleCluster sampleOperation).ret ∧
    externalCalls ((sampleStep (fetchedState MetadataUpdateFailed) none
        (fun n => if n < 2 then some sampleFailure else none)).Run
        sampleK8s sampleCluster sampleOperation).trace =
      externalCalls ((sampleStep (fetchedState Synchronized) none
        (fun n => if n < 2 then some sampleFailure else none)).Run
        sampleK8s sampleCluster sampleOperation).trace ∧
    Event.setRuntimeStatusCondition "runtime-1" "CONNECTED" "tenant-1" ∈
      ((sampleStep (fetchedState MetadataUpdateFailed) none
        (fun n => if n < 2 then some sampleFailure else none)).Run
        sampleK8s sampleCluster sampleOperation).trace :=
  C6_warning_states_as_synchronized sampleK8s
    (sampleStep (fetchedState MetadataUpdateFailed) none
      (fun n => if n < 2 then some sampleFailure else none))
    (fun _ => .ok (sampleClient (fetchedState Synchronized)))
    sampleCluster sampleOperation "kubeconfig" { data := "kubeconfig" }
    (sampleClient (fetchedState MetadataUpdateFailed)) (sampleClient (fetchedState Synchronized))
    { Status := { State := MetadataUpdateFailed } } { Status := { State := Synchronized } }
    ⟨rfl, rfl, rfl⟩ ⟨rfl, rfl, rfl⟩ rfl (Or.inr rfl) rfl rfl

/-- C7: `Run` returns an error if and only if the kubeconfig is nil, or it does not parse, or the
client constructor fails, or the fetch fails with an error that is not not-found, or the fetched
state is `ConnectionFailed` and `ConfigureRuntime` fails.  With a nil kubeconfig the invocation
makes no call at all, and every error comes with the zero `StageResult`. -/
theorem C7_error_iff (k8s : K8s) (s : WaitForAgentToConnectStep) (cluster : Cluster)
    (op : Operation) :
    ((s.Run k8s cluster op).err ≠ none ↔
      cluster.Kubeconfig = none ∨
      (∃ kc e, cluster.Kubeconfig = some kc ∧ k8s.ParseToK8sConfig kc = .error e) ∨
      (∃ kc cfg e, cluster.Kubeconfig = some kc ∧ k8s.ParseToK8sConfig kc = .ok cfg ∧
        s.newCompassConnectionClient cfg = .error e) ∨
      (∃ kc cfg client e, usableCredentials k8s s cluster kc cfg client ∧
        client.Get "compass-connection" = .error e ∧ IsNotFound e = false) ∨
      (∃ kc cfg client cr e, usableCredentials k8s s cluster kc cfg client ∧
        client.Get "compass-connection" = .ok cr ∧ cr.Status.State = ConnectionFailed ∧
        s.runtimeConfigurator.ConfigureRuntime cluster kc = some e)) ∧
    (cluster.Kubeconfig = none →
      (s.Run k8s cluster op).err = some (Err.errorf "error: kubeconfig is nil") ∧
      (s.Run k8s cluster op).trace = []) ∧
    ((s.Run k8s cluster op).err ≠ none →
      (s.Run k8s cluster op).result = { Stage := "", Delay := 0 }) := by
  refine ⟨(Run_err_iff k8s s cluster op).1, ?_, (Run_err_iff k8s s cluster op).2⟩
  intro hk
  simp [WaitForAgentToConnectStep.Run, hk]

/-- A use of C7: a cluster without kubeconfig fails before anything is called. -/
theorem C7_error_iff_witness :
    ((sampleStep (fetchedState Synchronized) none (fun _ => none)).Run
        sampleK8s sampleClusterNoKubeconfig sampleOperation).err =
      some (Err.errorf "error: kubeconfig is nil") ∧
    ((sampleStep (fetchedState Synchronized) none (fun _ => none)).Run
        sampleK8s sampleClusterNoKubeconfig sampleOperation).trace = [] :=
  (C7_error_iff sampleK8s (sampleStep (fetchedState Synchronized) none (fun _ => none))
    sampleClusterNoKubeconfig sampleOperation).2.1 rfl

/-- C9, as stated, fails: with a fetched state `Synchronized` and a director that fails on the
first attempt and succeeds on the second, the invocation sleeps five seconds between the two
attempts. -/
theorem C9_counterexample :
    ((sampleStep (fetchedState Synchronized) none
        (fun n => if n < 1 then some sampleFailure else none)).Run
        sampleK8s sampleCluster sampleOperation).trace =
      [Event.newCompassConnectionClient { data := "kubeconfig" },
        Event.get "compass-connection",
        Event.setRuntimeStatusCondition "runtime-1" "CONNECTED" "tenant-1",
        Event.sleep 5000000000,
        Event.setRuntimeStatusCondition "runtime-1" "CONNECTED" "tenant-1"] ∧
    ¬ sleeps ((sampleStep (fetchedState Synchronized) none
        (fun n => if n < 1 then some sampleFailure else none)).Run
        sampleK8s sampleCluster sampleOperation).trace = 0 := by
  constructor <;> decide

/-- C9, amended: `Run` sleeps only inside the bounded retry of the directory report.  Every sleep
event of an execution lasts five seconds; an execution holds at most two of them, one less than
it holds `SetRuntimeStatusCondition` calls (and none when it holds no such call); it holds none
when the first report attempt succeeds. -/
theorem C9_sleeps_only_between_reports (k8s : K8s) (s : WaitForAgentToConnectStep)
    (cluster : Cluster) (op : Operation) :
    sleeps (s.Run k8s cluster op).trace ≤ 2 ∧
    sleeps (s.Run k8s cluster op).trace = directorCalls (s.Run k8s cluster op).trace - 1 ∧
    (∀ e ∈ (s.Run k8s cluster op).trace, e.isSleep = true → e = Event.sleep (5 * Second)) ∧
    (s.directorClient.SetRuntimeStatusCondition 0 cluster.ID RuntimeStatusConditionConnected
        cluster.Tenant = none →
      sleeps (s.Run k8s cluster op).trace = 0) := by
  obtain ⟨_, _, hd, hsl, hev⟩ := Run_bounds k8s s cluster op
  exact ⟨by omega, hsl, hev, Run_no_sleep_of_first_report k8s s cluster op⟩

/-- A use of the amended C9: when the first report succeeds nothing sleeps. -/
theorem C9_sleeps_only_between_reports_witness :
    sleeps ((sampleStep (fetchedState Synchronized) none (fun _ => none)).Run
      sampleK8s sampleCluster sampleOperation).trace = 0 :=
  (C9_sleeps_only_between_reports sampleK8s
    (sampleStep (fetchedState Synchronized) none (fun _ => none))
    sampleCluster sampleOperation).2.2.2 rfl

/-- C10: two successive invocations of `Run` in an unchanged environment return the same pair and
make the same calls, whatever the two `Operation` arguments; both leave the step as it was; each
makes at most one `ConfigureRuntime` call and at most three `SetRuntimeStatusCondition` calls. -/
theorem C10_idempotent (k8s : K8s) (s : WaitForAgentToConnectStep) (cluster : Cluster)
    (op₁ op₂ : Operation) :
    ((s.Run k8s cluster op₁).step.Run k8s cluster op₂).ret = (s.Run k8s cluster op₁).ret ∧
    ((s.Run k8s cluster op₁).step.Run k8s cluster op₂).trace = (s.Run k8s cluster op₁).trace ∧
    (s.Run k8s cluster op₁).step = s ∧
    ((s.Run k8s cluster op₁).step.Run k8s cluster op₂).step = s ∧
    configureCalls (s.Run k8s cluster op₁).trace ≤ 1 ∧
    directorCalls (s.Run k8s cluster op₁).trace ≤ 3 ∧
    configureCalls ((s.Run k8s cluster op₁).step.Run k8s cluster op₂).trace ≤ 1 ∧
    directorCalls ((s.Run k8s cluster op₁).step.Run k8s cluster op₂).trace ≤ 3 := by
  obtain ⟨hstep, hcf, hd, _, _⟩ := Run_bounds k8s s cluster op₁
  rw [hstep, Run_operation_irrelevant k8s s cluster op₂ op₁]
  exact ⟨rfl, rfl, rfl, hstep, hcf, hd, hcf, hd⟩

/-- A use of C10: a director that is down, polled twice with different operations. -/
theorem C10_idempotent_witness :
    (((sampleStep (fetchedState Synchronized) none (fun _ => some sampleFailure)).Run
        sampleK8s sampleCluster sampleOperation).step.Run
        sampleK8s sampleCluster otherOperation).ret =
      ({ Stage := "WaitForAgentToConnect", Delay := 2000000000 }, none) :=
  (C10_idempotent sampleK8s
    (sampleStep (fetchedState Synchronized) none (fun _ => some sampleFailure))
    sampleCluster sampleOperation otherOperation).1.trans (by decide)

end Provisioning
